import Mathlib

/-!
Formal model of the slack-song-linker Cloudflare worker (src/index.ts and the
extended worker source with YouTube fallback and D1 persistence), together with
the `shared_songs` migration.  Pure functions of the source are translated to
Lean functions; each outbound `fetch` of one per-URL processing step is modelled
by an explicit environment record describing what the external services return,
and the step itself becomes a pure function from that environment to the list of
posted Slack messages and the resulting stored table.
-/

/-- JavaScript truthiness of an optional string (`undefined`, `null` and the
empty string are falsy; every other string is truthy). -/
def jsTruthy (o : Option String) : Bool :=
  match o with
  | none => false
  | some s => !(s == "")

/-- JavaScript `a || b` on optional strings: yields `b` whenever `a` is falsy. -/
def jsOr (a b : Option String) : Option String :=
  if jsTruthy a then a else b

/-- JavaScript `a || d` with a string default: yields `d` whenever `a` is falsy. -/
def jsOrD (a : Option String) (d : String) : String :=
  if jsTruthy a then a.getD d else d

/-- JavaScript template-literal interpolation of a possibly absent string:
`undefined` is rendered as the literal text `undefined`. -/
def jsShow (o : Option String) : String :=
  match o with
  | none => "undefined"
  | some s => s

/-- The characters matched by the regex class `\s` (ASCII portion, which is the
only portion any string in this development contains). -/
def isWs (c : Char) : Bool :=
  c == ' ' || c == '\t' || c == '\n' || c == '\r' || c == '\u000b' || c == '\u000c'

/-- Case-insensitive prefix stripping: the regex-engine step of matching a fixed
pattern with the `i` flag.  Returns the remaining characters on success. -/
def stripPrefixCI : List Char → List Char → Option (List Char)
  | [], cs => some cs
  | _ :: _, [] => none
  | p :: ps, c :: cs => if p.toLower == c.toLower then stripPrefixCI ps cs else none

/-- The regex class `[\w-]` used by the bandcamp wildcard-subdomain pattern. -/
def wordDash (c : Char) : Bool :=
  c.isAlphanum || c == '_' || c == '-'

/-- One alternative of the domain alternation of `MUSIC_URL_REGEX`: a literal
domain (matched case-insensitively) or the wildcard-subdomain pattern
`[\w-]+\.bandcamp\.com`. -/
inductive DomainPat
  | lit (s : String)
  | bandcampSub
deriving Repr, DecidableEq

/-- The domain alternation of `MUSIC_URL_REGEX`, alternatives in source order.
`(?:web\.)?napster\.com` and `music\.yandex\.(?:com|ru)` are expanded to their
two variants in the order the engine tries them. -/
def domainPatterns : List DomainPat :=
  [.lit "open.spotify.com", .lit "music.apple.com", .lit "itunes.apple.com",
   .lit "youtube.com", .lit "youtu.be", .lit "music.youtube.com",
   .lit "play.google.com", .lit "pandora.com", .lit "deezer.com",
   .lit "tidal.com", .lit "amazon.com/music", .lit "music.amazon.com",
   .lit "soundcloud.com", .lit "web.napster.com", .lit "napster.com",
   .lit "music.yandex.com", .lit "music.yandex.ru", .lit "spinrilla.com",
   .lit "audius.co", .lit "anghami.com", .lit "boomplay.com",
   .lit "audiomack.com", .bandcampSub, .lit "bandcamp.com"]

/-- Matching one domain alternative.  `[\w-]+\.bandcamp\.com` takes the maximal
run of `[\w-]` characters (the class excludes `.`, so the greedy run is the
only candidate) followed by the literal `.bandcamp.com`. -/
def matchPat : DomainPat → List Char → Option (List Char)
  | .lit s, cs => stripPrefixCI s.data cs
  | .bandcampSub, cs =>
    let run := cs.takeWhile wordDash
    if run.isEmpty then none
    else stripPrefixCI ".bandcamp.com".data (cs.drop run.length)

/-- The full domain alternation: first alternative that matches, in source
order.  No two alternatives can match at the same position with the later one
rescuing a failed path continuation, so first-match alternation is faithful to
the backtracking engine here. -/
def matchDomain (cs : List Char) : Option (List Char) :=
  domainPatterns.findSome? (fun p => matchPat p cs)

/-- The path part `\/[^\s]+` of `MUSIC_URL_REGEX`: a slash followed by a
nonempty greedy run of non-whitespace characters.  Returns consumed length. -/
def matchTail (rest : List Char) : Option Nat :=
  match rest with
  | '/' :: rest2 =>
    let run := rest2.takeWhile (fun c => !isWs c)
    if run.isEmpty then none else some (1 + run.length)
  | _ => none

/-- One attempt of `MUSIC_URL_REGEX` at the current position with a fixed
scheme prefix (`https://`, `http://`, or none).  Returns total consumed. -/
def matchFrom (cs : List Char) (scheme : String) : Option Nat :=
  match stripPrefixCI scheme.data cs with
  | none => none
  | some rest1 =>
    match matchDomain rest1 with
    | none => none
    | some rest2 =>
      match matchTail rest2 with
      | none => none
      | some n => some (cs.length - rest2.length + n)

/-- `MUSIC_URL_REGEX` at one position: `(https?:\/\/)?` tries the `https`
variant first, then `http`, then no scheme, as the greedy engine does. -/
def matchAt (cs : List Char) : Option Nat :=
  match matchFrom cs "https://" with
  | some n => some n
  | none =>
    match matchFrom cs "http://" with
    | some n => some n
    | none => matchFrom cs ""

/-- Global scan of `text.match(MUSIC_URL_REGEX)`: leftmost matches, scanning
resuming at the end of each match.  The fuel argument is always called with
more fuel than characters, and every step consumes at least one character, so
the fuel never runs out on the initial call. -/
def scanAux : Nat → List Char → List String
  | 0, _ => []
  | _ + 1, [] => []
  | fuel + 1, c :: rest =>
    match matchAt (c :: rest) with
    | some n => String.mk ((c :: rest).take n) :: scanAux fuel ((c :: rest).drop n)
    | none => scanAux fuel rest

/-- `message.text.match(MUSIC_URL_REGEX)` from `handleMusicLinks`, as the list
of matched substrings (`[]` plays the role of the `null` result). -/
def matchMusicUrls (text : String) : List String :=
  scanAux (text.data.length + 1) text.data

/-- `url.replace(/^<|>$/g, "")` from `handleMusicLinks`: removes one leading
`<` (anchored at position 0) and one trailing `>` (anchored at the end) of the
original string; nothing else. -/
def stripAngles (s : String) : String :=
  let l1 := match s.data with
    | '<' :: rest => rest
    | l => l
  String.mk (if l1.getLast? == some '>' then l1.dropLast else l1)

/-- A row of the `shared_songs` table / the `SharedSong` value handed to
`storeSongShare` (the `?? null` binds make the three nullable columns
`Option`-valued; `id` and the defaulted `shared_at` column play no role in the
natural key and are omitted). -/
structure SharedSong where
  original_url : String
  songlink_url : Option String
  youtube_url : Option String
  title : Option String
  shared_by : String
  channel : String
  message_ts : String
deriving Repr, DecidableEq

/-- Two rows agree on the natural key `UNIQUE(channel, message_ts, original_url)`
of the `shared_songs` migration. -/
def sameKey (a b : SharedSong) : Bool :=
  a.channel == b.channel && a.message_ts == b.message_ts && a.original_url == b.original_url

/-- `INSERT OR IGNORE` into `shared_songs`: a row whose natural key is already
present is ignored (no error, no overwrite); otherwise the row is appended. -/
def insertOrIgnore (db : List SharedSong) (r : SharedSong) : List SharedSong :=
  if db.any (sameKey r) then db else db ++ [r]

/-- The table invariant enforced by the unique index: no two rows share the
natural key. -/
def noDupKeys : List SharedSong → Bool
  | [] => true
  | r :: rest => !rest.any (sameKey r) && noDupKeys rest

/-- `storeSongShare`: the D1 insert with `INSERT OR IGNORE`, wrapped in
`try/catch` so that a persistence error (modelled by the `dbFail` flag) is
logged and swallowed — the table is left unchanged and the function returns
normally either way. -/
def storeSongShare (dbFail : Bool) (db : List SharedSong) (song : SharedSong) :
    List SharedSong :=
  if dbFail then db else insertOrIgnore db song

/-- The platform alternation shared by the two title-suffix-stripping regexes
of `extractSearchQuery`, in source order. -/
def platformNames : List String :=
  ["Spotify", "Apple Music", "SoundCloud", "Bandcamp", "Deezer", "Tidal",
   "YouTube", "YouTube Music", "Amazon Music", "Pandora", "Listen", "Play",
   "Stream"]

/-- JS regex `.` excludes line terminators; `.*$` (no `m` flag) therefore
requires the remaining characters to contain none of them. -/
def isLineTerm (c : Char) : Bool :=
  c == '\n' || c == '\r' || c == '\u2028' || c == '\u2029'

/-- After a platform name was matched, `.*$` succeeds iff the tail holds no
line terminator. -/
def restMatches (cs : List Char) : Bool :=
  !cs.any isLineTerm

/-- The suffix `(platform).*$` common to both stripping regexes: some platform
name (tried in alternation order, case-insensitively) followed by `.*$`. -/
def platformTail (cs : List Char) : Bool :=
  platformNames.any (fun p =>
    match stripPrefixCI p.data cs with
    | some tail => restMatches tail
    | none => false)

/-- `\s*[-|–—]\s*(platform).*$` holds at this position: optional whitespace, a
separator from the class `[-|–—]`, optional whitespace, then a platform name
and `.*$`.  (The separator characters are not whitespace and the platform
names start with letters, so the greedy whitespace runs are deterministic.) -/
def dashSuffixAt (cs : List Char) : Bool :=
  match cs.dropWhile isWs with
  | c :: rest =>
    (c == '-' || c == '|' || c == '–' || c == '—') && platformTail (rest.dropWhile isWs)
  | [] => false

/-- `title.replace(/\s*[-|–—]\s*(...).*$/i, "")`: the leftmost position where
the suffix pattern matches is found and everything from it on is removed. -/
def stripDashSuffix : List Char → List Char
  | [] => []
  | c :: rest => if dashSuffixAt (c :: rest) then [] else c :: stripDashSuffix rest

/-- `\s+on\s+(platform).*$` holds at this position: at least one whitespace
character, the word `on` (case-insensitive), at least one whitespace character,
then a platform name and `.*$`. -/
def onSuffixAt (cs : List Char) : Bool :=
  match cs with
  | c :: rest =>
    isWs c &&
      (match stripPrefixCI "on".data (rest.dropWhile isWs) with
       | some afterOn =>
         match afterOn with
         | d :: rest2 => isWs d && platformTail (rest2.dropWhile isWs)
         | [] => false
       | none => false)
  | [] => false

/-- `title.replace(/\s+on\s+(...).*$/i, "")`: removal from the leftmost match. -/
def stripOnSuffix : List Char → List Char
  | [] => []
  | c :: rest => if onSuffixAt (c :: rest) then [] else c :: stripOnSuffix rest

/-- Case-sensitive prefix stripping (for the entity replacements, which carry
no `i` flag). -/
def stripPrefixExact : List Char → List Char → Option (List Char)
  | [], cs => some cs
  | _ :: _, [] => none
  | p :: ps, c :: cs => if p == c then stripPrefixExact ps cs else none

/-- Global string replacement (`replace(/pat/g, rep)` for a literal pattern):
left-to-right, non-overlapping.  All patterns used are nonempty, so each step
consumes at least one character and the fuel (always one more than the number
of characters) never runs out. -/
def replaceAllAux (pat rep : List Char) : Nat → List Char → List Char
  | 0, cs => cs
  | _ + 1, [] => []
  | fuel + 1, c :: rest =>
    match stripPrefixExact pat (c :: rest) with
    | some tail => rep ++ replaceAllAux pat rep fuel tail
    | none => c :: replaceAllAux pat rep fuel rest

/-- Global replacement on strings. -/
def replaceAll (s pat rep : String) : String :=
  String.mk (replaceAllAux pat.data rep.data (s.data.length + 1) s.data)

/-- The chain of global entity replacements of `extractSearchQuery`, in source
order. -/
def decodeEntities (s : String) : String :=
  replaceAll
    (replaceAll
      (replaceAll (replaceAll (replaceAll s "&amp;" "&") "&quot;" "\"") "&#39;" "\x27")
      "&lt;" "<")
    "&gt;" ">"

/-- JS `String.prototype.trim`: strips whitespace from both ends. -/
def jsTrim (s : String) : String :=
  String.mk (((s.data.dropWhile isWs).reverse.dropWhile isWs).reverse)

/-- The full title-cleaning chain of `extractSearchQuery`: strip the
`- Platform` / `| Platform` suffix, strip the `on Platform` suffix, decode
basic HTML entities, trim. -/
def cleanTitle (t : String) : String :=
  jsTrim (decodeEntities (String.mk (stripOnSuffix (stripDashSuffix t.data))))

/-- `extractSearchQuery`, as a function of what the page fetch returned: the
HTTP success flag of the fetch and the text captured by the
`<title[^>]*>([^<]+)<\/title>` match (`none` when the fetch failed to produce a
title).  A cleaned title of length ≤ 3 yields no query. -/
def extractSearchQuery (pageOk : Bool) (title : Option String) : Option String :=
  if !pageOk then none
  else
    match title with
    | some t =>
      let c := cleanTitle t
      if 3 < c.length then some c else none
    | none => none

/-- `searchYouTube`, as a function of what the search fetch returned: the HTTP
success flag and the optional `items` array reduced to its video ids.  A
present nonempty array yields the watch URL of the first item; a missing or
empty array (and any fetch error) yields `null`. -/
def searchYouTube (ytOk : Bool) (ytItems : Option (List String)) : Option String :=
  if !ytOk then none
  else
    match ytItems with
    | some (videoId :: _) => some ("https://www.youtube.com/watch?v=" ++ videoId)
    | _ => none

/-- Entity metadata of the lookup response (`entitiesByUniqueId` values); both
fields are optional strings. -/
structure SongEntity where
  artistName : Option String
  title : Option String
deriving Repr, DecidableEq

/-- The two platform entries `handleMusicLinks` reads from `linksByPlatform`,
each reduced to the `url` of the optional entry. -/
structure LinksByPlatform where
  youtube : Option String
  youtubeMusic : Option String
deriving Repr, DecidableEq

/-- The parts of the song.link response body that `handleMusicLinks` reads.
`linksByPlatform` and `entitiesByUniqueId` are reached by optional chaining,
hence `Option`-valued; the entity mapping is an association list. -/
structure SongLinkResponse where
  pageUrl : String
  entityUniqueId : String
  linksByPlatform : Option LinksByPlatform
  entitiesByUniqueId : Option (List (String × SongEntity))
deriving Repr, DecidableEq

/-- JS object indexing `m[key]` on the entity mapping. -/
def lookupEntity : List (String × SongEntity) → String → Option SongEntity
  | [], _ => none
  | (k, v) :: rest, key => if k == key then some v else lookupEntity rest key

/-- `data.linksByPlatform?.youtube?.url || data.linksByPlatform?.youtubeMusic?.url`. -/
def videoUrlOf (data : SongLinkResponse) : Option String :=
  jsOr (data.linksByPlatform.bind LinksByPlatform.youtube)
    (data.linksByPlatform.bind LinksByPlatform.youtubeMusic)

/-- `const entity = data.entitiesByUniqueId?.[data.entityUniqueId]` followed by
``entity ? `${entity.artistName} - ${entity.title}` : undefined``: template
interpolation renders an absent field as the text `undefined`. -/
def songTitleOf (data : SongLinkResponse) : Option String :=
  (data.entitiesByUniqueId.bind (fun m => lookupEntity m data.entityUniqueId)).map
    (fun e => jsShow e.artistName ++ " - " ++ jsShow e.title)

/-- Outcome of the song.link lookup fetch: `response.ok` with a parsed body, or
a failure with `response.status`. -/
inductive LookupOutcome
  | success (data : SongLinkResponse)
  | failure (status : Nat)
deriving Repr, DecidableEq

/-- What the external world returns during the processing of one URL: the
song.link lookup outcome, the configured YouTube credential (`env.YOUTUBE_API_KEY`),
the page fetch and title match of `extractSearchQuery`, the YouTube search
outcome, the `Math.random` draw selecting the fallback template, the transport
and application outcome of the main success reply post, and whether the D1
insert throws. -/
structure UrlEnv where
  lookup : LookupOutcome
  apiKey : Option String
  pageOk : Bool
  pageTitle : Option String
  ytOk : Bool
  ytItems : Option (List String)
  rand : Fin 4
  slackHttpOk : Bool
  slackOk : Bool
  slackError : Option String
  dbFail : Bool
deriving Repr, DecidableEq

/-- A `chat.postMessage` body.  The two unfurl flags are absent (`none`) on the
plain notice posts, which do not set them. -/
structure PostPayload where
  channel : String
  text : String
  thread_ts : String
  unfurl_links : Option Bool
  unfurl_media : Option Bool
deriving Repr, DecidableEq

/-- The nested Slack message event (fields read by the worker). -/
structure SlackMessageEvent where
  type : String
  channel : String
  user : String
  text : Option String
  ts : String
  bot_id : Option String
deriving Repr, DecidableEq

/-- Reply text of the success path: canonical link, plus the video link on its
own line when the extracted video URL is truthy. -/
def composeSuccessText (songLink : String) (video : Option String) : String :=
  if jsTruthy video then "🎵 <" ++ songLink ++ ">\n" ++ video.getD ""
  else "🎵 <" ++ songLink ++ ">"

/-- The success reply post (`slackPayload` of `handleMusicLinks`). -/
def successReplyPost (msg : SlackMessageEvent) (data : SongLinkResponse) : PostPayload :=
  { channel := msg.channel, text := composeSuccessText data.pageUrl (videoUrlOf data),
    thread_ts := msg.ts, unfurl_links := some true, unfurl_media := some true }

/-- The four fallback notice templates, in source order. -/
def fallbackMessages : List String :=
  ["Well, that didn\x27t go according to plan. The API ghosted us. Rude. We are now doing things the hard way and hitting YouTube directly. Hold please... okay, got it:",
   "The easy way is officially broken. Don\x27t worry, we\x27re professionals. We are now taking the scenic route directly through YouTube\x27s servers. We found this:",
   "Seriously? The upstream API just gave up on us. Fine. We\x27re rolling up eight sleeves and digging this out of YouTube ourselves. It\x27s more work, but this is our only purpose in life:",
   "The API left us on read. Typical. We don\x27t have time for drama, so we bypassed the middleman and went straight to YouTube. Got it:"]

/-- The fallback reply post: a pseudo-randomly selected template, newline, the
found video URL. -/
def fallbackReplyPost (msg : SlackMessageEvent) (rand : Fin 4) (youtubeUrl : String) :
    PostPayload :=
  { channel := msg.channel, text := fallbackMessages.getD rand.val "" ++ "\n" ++ youtubeUrl,
    thread_ts := msg.ts, unfurl_links := some true, unfurl_media := some true }

/-- A plain threaded notice post (used for the rate-limit text, the upstream
error text and the reply-send failure text); sets no unfurl flags. -/
def noticePost (msg : SlackMessageEvent) (text : String) : PostPayload :=
  { channel := msg.channel, text := text, thread_ts := msg.ts,
    unfurl_links := none, unfurl_media := none }

/-- The fixed rate-limit notice. -/
def rateLimitText : String := "we got rate limited again. sigh"

/-- The prefix of the upstream-error notice, up to the interpolated status. -/
def upstreamTextPre : String :=
  "⚠️ Sorry, I couldn\x27t process that music link. The song.link API returned an error ("

/-- The suffix of the upstream-error notice, after the interpolated status. -/
def upstreamTextPost : String :=
  "). This might happen if the link type isn\x27t supported or the service is temporarily unavailable."

/-- The upstream-error notice with the interpolated status code. -/
def upstreamText (status : Nat) : String :=
  upstreamTextPre ++ toString status ++ upstreamTextPost

/-- ```⚠️ Error: ${slackData.error || "Failed to post message"}``` — the second
threaded notice sent when the success reply reports an application failure. -/
def slackFailNoticeText (err : Option String) : String :=
  "⚠️ Error: " ++ jsOrD err "Failed to post message"

/-- The YouTube fallback attempt on a failed lookup: runs only when the
credential is truthy; yields the derived query and found video URL when both
steps succeed. -/
def tryFallback (env : UrlEnv) : Option (String × String) :=
  if jsTruthy env.apiKey then
    match extractSearchQuery env.pageOk env.pageTitle with
    | some q =>
      match searchYouTube env.ytOk env.ytItems with
      | some y => some (q, y)
      | none => none
    | none => none
  else none

/-- Result of processing one URL: the `chat.postMessage` bodies sent, in order,
and the resulting stored table. -/
structure UrlOutcome where
  posts : List PostPayload
  db : List SharedSong
deriving Repr, DecidableEq

/-- The body of `handleMusicLinks`'s per-URL loop, as a pure function of the
environment: clean the URL, call the lookup; on failure attempt the YouTube
fallback (posting the fallback reply and storing a record on success), else
post the rate-limit or upstream-error notice and store nothing; on success
store a record, post the success reply, and — only when that post's HTTP
transport succeeded but its application `ok` is false — post the follow-up
error notice. -/
def handleMusicLink (msg : SlackMessageEvent) (url : String) (env : UrlEnv)
    (db : List SharedSong) : UrlOutcome :=
  let cleanUrl := stripAngles url
  match env.lookup with
  | .failure status =>
    match tryFallback env with
    | some (q, y) =>
      { posts := [fallbackReplyPost msg env.rand y],
        db := storeSongShare env.dbFail db
          { original_url := cleanUrl, songlink_url := none, youtube_url := some y,
            title := some q, shared_by := msg.user, channel := msg.channel,
            message_ts := msg.ts } }
    | none =>
      { posts := [noticePost msg (if status == 429 then rateLimitText else upstreamText status)],
        db := db }
  | .success data =>
    let db2 := storeSongShare env.dbFail db
      { original_url := cleanUrl, songlink_url := some data.pageUrl,
        youtube_url := videoUrlOf data, title := songTitleOf data,
        shared_by := msg.user, channel := msg.channel, message_ts := msg.ts }
    let main := successReplyPost msg data
    if !env.slackHttpOk then { posts := [main], db := db2 }
    else if env.slackOk then { posts := [main], db := db2 }
    else { posts := [main, noticePost msg (slackFailNoticeText env.slackError)], db := db2 }

/-- The inbound event envelope (fields read by the `/slack/events` handler). -/
structure SlackEvent where
  type : String
  challenge : Option String
  event : Option SlackMessageEvent
deriving Repr, DecidableEq

/-- The response body the endpoint returns once the signature has been
verified: the echoed challenge JSON, or the plain `OK` text. -/
inductive DispatchResponse
  | challengeJson (challenge : Option String)
  | okText
deriving Repr, DecidableEq

/-- What the endpoint does with a signature-verified request: its response,
and the message event handed to `waitUntil(handleMusicLinks(...))`, if any
(`none` means no pipeline processing happens: no lookup call, no reply, no
stored record). -/
structure DispatchResult where
  response : DispatchResponse
  scheduled : Option SlackMessageEvent
deriving Repr, DecidableEq

/-- The `/slack/events` handler after signature verification: echo the
challenge for `url_verification`; schedule `handleMusicLinks` for an
`event_callback` whose nested event is a message with a falsy `bot_id`; answer
`OK` in both remaining cases. -/
def dispatchVerified (ev : SlackEvent) : DispatchResult :=
  if ev.type == "url_verification" then
    { response := .challengeJson ev.challenge, scheduled := none }
  else
    if ev.type == "event_callback" &&
        (match ev.event with
         | some e => e.type == "message" && !jsTruthy e.bot_id
         | none => false) then
      { response := .okText, scheduled := ev.event }
    else
      { response := .okText, scheduled := none }

theorem sameKey_eq (a b : SharedSong) :
    sameKey a b = true ↔
      a.channel = b.channel ∧ a.message_ts = b.message_ts ∧ a.original_url = b.original_url := by
  simp [sameKey, and_assoc]

theorem sameKey_symm (a b : SharedSong) : sameKey a b = sameKey b a := by
  rw [Bool.eq_iff_iff, sameKey_eq, sameKey_eq]
  constructor <;> rintro ⟨h1, h2, h3⟩ <;> exact ⟨h1.symm, h2.symm, h3.symm⟩

theorem sameKey_trans {a b c : SharedSong} (h1 : sameKey a b = true)
    (h2 : sameKey b c = true) : sameKey a c = true := by
  rw [sameKey_eq] at h1 h2 ⊢
  exact ⟨h1.1.trans h2.1, h1.2.1.trans h2.2.1, h1.2.2.trans h2.2.2⟩

theorem noDupKeys_append_single (db : List SharedSong) (r : SharedSong)
    (h : noDupKeys db = true) (h2 : db.any (sameKey r) = false) :
    noDupKeys (db ++ [r]) = true := by
  induction db with
  | nil => simp [noDupKeys]
  | cons x rest ih =>
    simp only [noDupKeys, Bool.and_eq_true, Bool.not_eq_true'] at h
    simp only [List.any_cons, Bool.or_eq_false_iff] at h2
    have hxr : sameKey x r = false := by rw [sameKey_symm]; exact h2.1
    simp only [List.cons_append, noDupKeys, Bool.and_eq_true, Bool.not_eq_true']
    refine ⟨?_, ih h.2 h2.2⟩
    simp [List.any_append, h.1, hxr]

/-- C1: a Slack-wrapped link `<URL|label>` is NOT fully cleaned by the worker:
`MUSIC_URL_REGEX` matches from the scheme through every non-space character
(including `|label>`), and `url.replace(/^<|>$/g, "")` removes only the
trailing `>`, so the `|Track` display-text suffix survives into the URL used
by the rest of the pipeline; the claimed result drops it. -/
theorem c1_code_eval :
    (matchMusicUrls "<https://open.spotify.com/track/1|Track>").map stripAngles
      = ["https://open.spotify.com/track/1|Track"]
    ∧ "https://open.spotify.com/track/1|Track" ≠ "https://open.spotify.com/track/1" := by
  exact ⟨by decide, by decide⟩

/-- C3: the stored table keeps at most one row per natural key
`(channel, message_ts, original_url)`, and a second `storeSongShare` insert
with the same natural key (even with different non-key fields) leaves the
table unchanged — no error, no overwrite, no duplicate. -/
theorem c3_insert_idempotent (db : List SharedSong) (r rr : SharedSong)
    (h : noDupKeys db = true) :
    noDupKeys (insertOrIgnore db r) = true
      ∧ (sameKey r rr = true →
          insertOrIgnore (insertOrIgnore db r) rr = insertOrIgnore db r) := by
  constructor
  · unfold insertOrIgnore
    by_cases hany : db.any (sameKey r) = true
    · simp [hany, h]
    · have hf : db.any (sameKey r) = false := by simpa using hany
      simpa [hf] using noDupKeys_append_single db r h hf
  · intro hkey
    have hrrr : sameKey rr r = true := by rw [sameKey_symm]; exact hkey
    by_cases hany : db.any (sameKey r) = true
    · have hany2 : db.any (sameKey rr) = true := by
        rcases List.any_eq_true.mp hany with ⟨x, hx, hxk⟩
        exact List.any_eq_true.mpr ⟨x, hx, sameKey_trans hrrr hxk⟩
      simp [insertOrIgnore, hany, hany2]
    · have hf : db.any (sameKey r) = false := by simpa using hany
      have hany2 : (db ++ [r]).any (sameKey rr) = true := by
        simp [List.any_append, hrrr]
      simp [insertOrIgnore, hf, hany2]

/-- Witness for C3: a fresh insert keeps the invariant, and re-recording the
same (conversation, timestamp, URL) with different non-key fields changes
nothing. -/
theorem c3_witness :
    noDupKeys (insertOrIgnore [] ⟨"u", none, none, none, "U1", "C1", "1.0"⟩) = true
      ∧ insertOrIgnore (insertOrIgnore [] ⟨"u", none, none, none, "U1", "C1", "1.0"⟩)
          ⟨"u", some "s", none, none, "U2", "C1", "1.0"⟩
        = insertOrIgnore [] ⟨"u", none, none, none, "U1", "C1", "1.0"⟩ := by
  have h := c3_insert_idempotent [] ⟨"u", none, none, none, "U1", "C1", "1.0"⟩
    ⟨"u", some "s", none, none, "U2", "C1", "1.0"⟩ (by decide)
  exact ⟨h.1, h.2 (by decide)⟩

/-- C6: the fallback query is this function of the fetched page title: no
title (or a failed page fetch) yields no query, a cleaned title of length ≤ 3
yields no query, and the suffix-stripping drops `| Spotify` from
`Song Title - Artist | Spotify`, leaving `Song Title - Artist`. -/
theorem c6_query_derivation :
    (∀ ok, extractSearchQuery ok none = none)
      ∧ (∀ ok t, (cleanTitle t).length ≤ 3 → extractSearchQuery ok (some t) = none)
      ∧ extractSearchQuery true (some "Song Title - Artist | Spotify")
          = some "Song Title - Artist" := by
  refine ⟨?_, ?_, by decide⟩
  · intro ok
    cases ok <;> simp [extractSearchQuery]
  · intro ok t h
    cases ok
    · simp [extractSearchQuery]
    · simp [extractSearchQuery, Nat.not_lt.mpr h]

/-- Witness for C6: a short cleaned title produces no query. -/
theorem c6_witness : extractSearchQuery true (some "Hi") = none :=
  c6_query_derivation.2.1 true "Hi" (by decide)

theorem tryFallback_none_of_no_key (env : UrlEnv) (h : jsTruthy env.apiKey = false) :
    tryFallback env = none := by
  simp [tryFallback, h]

/-- A message event used by the C2 theorems. -/
def c2Msg : SlackMessageEvent :=
  { type := "message", channel := "C100", user := "U100",
    text := some "https://open.spotify.com/track/1", ts := "1700000000.000100",
    bot_id := none }

/-- C2 counterexample environment: lookup rate-limited (429), a YouTube
credential configured, and a fallback that succeeds. -/
def c2Env : UrlEnv :=
  { lookup := .failure 429, apiKey := some "YTKEY", pageOk := true,
    pageTitle := some "Cool Song - Artist | Spotify", ytOk := true,
    ytItems := some ["dQw4w9WgXcQ"], rand := 0, slackHttpOk := true,
    slackOk := true, slackError := none, dbFail := false }

/-- C2 counterexample: on HTTP 429 with a video-search credential configured,
the code DOES attempt the fallback — here it succeeds, so a record is
persisted and the rate-limit notice is never posted, contradicting the claim
for the credential-configured case. -/
theorem c2_counterexample :
    (handleMusicLink c2Msg "https://open.spotify.com/track/1" c2Env []).db ≠ []
      ∧ ((handleMusicLink c2Msg "https://open.spotify.com/track/1" c2Env []).posts.all
          (fun p => !(p.text == rateLimitText))) = true := by
  exact ⟨by decide, by decide⟩

/-- C2 (amended): on HTTP 429 the fixed rate-limit notice is posted and no
record is stored whenever the fallback is unavailable — in particular whenever
no video-search credential is configured (a falsy credential makes
`tryFallback` return nothing); with a credential configured the fallback is
attempted first and takes precedence when it succeeds. -/
theorem c2_rate_limit_amended (msg : SlackMessageEvent) (url : String) (env : UrlEnv)
    (db : List SharedSong) (h : env.lookup = .failure 429)
    (hfb : jsTruthy env.apiKey = false ∨ tryFallback env = none) :
    (handleMusicLink msg url env db).posts = [noticePost msg rateLimitText]
      ∧ (handleMusicLink msg url env db).db = db := by
  have hnone : tryFallback env = none := by
    rcases hfb with hk | hn
    · exact tryFallback_none_of_no_key env hk
    · exact hn
  simp [handleMusicLink, h, hnone]

/-- Environment for the C2 witness: 429, no credential. -/
def c2wEnv : UrlEnv :=
  { lookup := .failure 429, apiKey := none, pageOk := true, pageTitle := none,
    ytOk := true, ytItems := none, rand := 0, slackHttpOk := true, slackOk := true,
    slackError := none, dbFail := false }

/-- Witness for C2 (amended): with no credential configured, a 429 yields the
rate-limit notice and an unchanged table. -/
theorem c2_witness :
    (handleMusicLink c2Msg "https://open.spotify.com/track/1" c2wEnv []).posts
        = [noticePost c2Msg rateLimitText]
      ∧ (handleMusicLink c2Msg "https://open.spotify.com/track/1" c2wEnv []).db = [] :=
  c2_rate_limit_amended c2Msg "https://open.spotify.com/track/1" c2wEnv [] rfl (Or.inl rfl)

/-- C4: the success reply always carries the canonical link: with no video
link the reply text is exactly the canonical-link line, and with a (non-empty)
video link v it is that line, a newline, then v — the video on its own line.
The first conjunct ties this to the pipeline: on a successful lookup the first
message `handleMusicLink` posts has exactly the composed text. -/
theorem c4_reply_composition (msg : SlackMessageEvent) (url : String) (env : UrlEnv)
    (db : List SharedSong) (data : SongLinkResponse) (songLink : String) (v : String) :
    (env.lookup = .success data →
      ((handleMusicLink msg url env db).posts.head?.map PostPayload.text)
        = some (composeSuccessText data.pageUrl (videoUrlOf data)))
      ∧ composeSuccessText songLink none = "🎵 <" ++ songLink ++ ">"
      ∧ (v ≠ "" →
          composeSuccessText songLink (some v)
            = ("🎵 <" ++ songLink ++ ">") ++ "\n" ++ v) := by
  refine ⟨?_, ?_, ?_⟩
  · intro h
    cases hh : env.slackHttpOk <;> cases ho : env.slackOk <;>
      simp [handleMusicLink, h, hh, ho, successReplyPost]
  · simp [composeSuccessText, jsTruthy]
  · intro hv
    have hb : (v == "") = false := beq_eq_false_iff_ne.mpr hv
    simp [composeSuccessText, jsTruthy, hb, String.append_assoc]

/-- A message event used by the C4 witness. -/
def c4Msg : SlackMessageEvent :=
  { type := "message", channel := "C400", user := "U400",
    text := some "https://open.spotify.com/track/4", ts := "1700000000.000400",
    bot_id := none }

/-- Lookup data for the C4 witness: canonical link plus a youtube link. -/
def c4Data : SongLinkResponse :=
  { pageUrl := "https://song.link/s/4", entityUniqueId := "E4",
    linksByPlatform := some { youtube := some "https://www.youtube.com/watch?v=abc", youtubeMusic := none },
    entitiesByUniqueId := none }

/-- Environment for the C4 witness: successful lookup, reply accepted. -/
def c4Env : UrlEnv :=
  { lookup := .success c4Data, apiKey := none, pageOk := false, pageTitle := none,
    ytOk := false, ytItems := none, rand := 0, slackHttpOk := true, slackOk := true,
    slackError := none, dbFail := false }

/-- Witness for C4 at a concrete successful lookup with and without video. -/
theorem c4_witness :
    ((handleMusicLink c4Msg "https://open.spotify.com/track/4" c4Env []).posts.head?.map
        PostPayload.text)
        = some (composeSuccessText c4Data.pageUrl (videoUrlOf c4Data))
      ∧ composeSuccessText "https://song.link/s/4" none = "🎵 <" ++ "https://song.link/s/4" ++ ">"
      ∧ composeSuccessText "https://song.link/s/4" (some "https://www.youtube.com/watch?v=abc")
        = ("🎵 <" ++ "https://song.link/s/4" ++ ">") ++ "\n" ++ "https://www.youtube.com/watch?v=abc" := by
  have h := c4_reply_composition c4Msg "https://open.spotify.com/track/4" c4Env []
    c4Data "https://song.link/s/4" "https://www.youtube.com/watch?v=abc"
  exact ⟨h.1 rfl, h.2.1, h.2.2 (by decide)⟩

/-- C5: a non-429 lookup failure with no video-search credential yields
exactly one notice whose text interpolates the upstream status code, and no
stored record. -/
theorem c5_upstream_error (msg : SlackMessageEvent) (url : String) (env : UrlEnv)
    (db : List SharedSong) (status : Nat) (h : env.lookup = .failure status)
    (h429 : (status == 429) = false) (hkey : jsTruthy env.apiKey = false) :
    (handleMusicLink msg url env db).posts = [noticePost msg (upstreamText status)]
      ∧ (handleMusicLink msg url env db).db = db
      ∧ upstreamText status = upstreamTextPre ++ toString status ++ upstreamTextPost := by
  have hnone := tryFallback_none_of_no_key env hkey
  refine ⟨?_, ?_, rfl⟩ <;> simp [handleMusicLink, h, hnone, h429]

/-- A message event used by the C5 witness. -/
def c5Msg : SlackMessageEvent :=
  { type := "message", channel := "C500", user := "U500",
    text := some "https://tidal.com/album/1", ts := "1700000000.000500", bot_id := none }

/-- Environment for the C5 witness: HTTP 500, no credential. -/
def c5Env : UrlEnv :=
  { lookup := .failure 500, apiKey := none, pageOk := false, pageTitle := none,
    ytOk := false, ytItems := none, rand := 0, slackHttpOk := true, slackOk := true,
    slackError := none, dbFail := false }

/-- Witness for C5 at HTTP 500 with fallback disabled. -/
theorem c5_witness :
    (handleMusicLink c5Msg "https://tidal.com/album/1" c5Env []).posts
        = [noticePost c5Msg (upstreamText 500)]
      ∧ (handleMusicLink c5Msg "https://tidal.com/album/1" c5Env []).db = [] := by
  have h := c5_upstream_error c5Msg "https://tidal.com/album/1" c5Env [] 500 rfl (by decide) rfl
  exact ⟨h.1, h.2.1⟩

/-- A message event used by the C7 theorems. -/
def c7Msg : SlackMessageEvent :=
  { type := "message", channel := "C700", user := "U700",
    text := some "https://tidal.com/track/9", ts := "1700000000.000700", bot_id := none }

/-- C7 counterexample environment: failed lookup, successful fallback, and a
chat service that reports `ok: false` for reply posts. -/
def c7Env : UrlEnv :=
  { lookup := .failure 500, apiKey := some "YTKEY", pageOk := true,
    pageTitle := some "Great Song - Artist | Spotify", ytOk := true,
    ytItems := some ["abc123def45"], rand := 2, slackHttpOk := true,
    slackOk := false, slackError := some "channel_not_found", dbFail := false }

/-- C7 counterexample: the fallback-success reply is sent fire-and-forget.
Although the chat service reports an application-level failure
(`ok: false`, reason `channel_not_found`), exactly one message is posted and
no `⚠️ Error:` follow-up notice is sent — the claim fails for the
fallback-success reply. -/
theorem c7_counterexample :
    (handleMusicLink c7Msg "https://tidal.com/track/9" c7Env []).posts.length = 1
      ∧ c7Env.slackOk = false
      ∧ ((handleMusicLink c7Msg "https://tidal.com/track/9" c7Env []).posts.all
          (fun p => (stripPrefixExact "⚠️ Error: ".data p.text.data).isNone)) = true := by
  exact ⟨by decide, by decide, by decide⟩

/-- C7 (amended): only the success-path reply's response is inspected — when
its transport succeeds but its application `ok` is false, a second threaded
notice carrying the failure reason follows it; the fallback-success reply (and
the error notices) are posted without any response check. -/
theorem c7_followup_amended (msg : SlackMessageEvent) (url : String) (env : UrlEnv)
    (db : List SharedSong) :
    (∀ data, env.lookup = .success data → env.slackHttpOk = true → env.slackOk = false →
      (handleMusicLink msg url env db).posts
        = [successReplyPost msg data, noticePost msg (slackFailNoticeText env.slackError)])
      ∧ (∀ status q y, env.lookup = .failure status → tryFallback env = some (q, y) →
          (handleMusicLink msg url env db).posts = [fallbackReplyPost msg env.rand y]) := by
  constructor
  · intro data h hh ho
    simp [handleMusicLink, h, hh, ho]
  · intro status q y h hfb
    simp [handleMusicLink, h, hfb]

/-- Lookup data for the C7 witness. -/
def c7wData : SongLinkResponse :=
  { pageUrl := "https://song.link/s/7", entityUniqueId := "E7",
    linksByPlatform := none, entitiesByUniqueId := none }

/-- Environment for the C7 witness: successful lookup whose reply post reports
`ok: false`. -/
def c7wEnv : UrlEnv :=
  { lookup := .success c7wData, apiKey := none, pageOk := false, pageTitle := none,
    ytOk := false, ytItems := none, rand := 0, slackHttpOk := true, slackOk := false,
    slackError := some "is_archived", dbFail := false }

/-- Witness for C7 (amended): the success reply with `ok: false` is followed
by the error notice carrying the reason. -/
theorem c7_witness :
    (handleMusicLink c7Msg "https://tidal.com/track/9" c7wEnv []).posts
      = [successReplyPost c7Msg c7wData,
         noticePost c7Msg (slackFailNoticeText (some "is_archived"))] :=
  (c7_followup_amended c7Msg "https://tidal.com/track/9" c7wEnv []).1 c7wData rfl rfl rfl

/-- A message event used by the C8 theorem. -/
def c8Msg : SlackMessageEvent :=
  { type := "message", channel := "C800", user := "U800",
    text := some "https://open.spotify.com/track/2", ts := "1700000000.000800",
    bot_id := none }

/-- C8 failing input: the primary entity is present in the mapping but its
`artistName` field is absent. -/
def c8Data : SongLinkResponse :=
  { pageUrl := "https://song.link/s/2", entityUniqueId := "SPOTIFY_SONG::1",
    linksByPlatform := none,
    entitiesByUniqueId :=
      some [("SPOTIFY_SONG::1", { artistName := none, title := some "Half Light" })] }

/-- Environment for C8: successful lookup returning `c8Data`. -/
def c8Env : UrlEnv :=
  { lookup := .success c8Data, apiKey := none, pageOk := false, pageTitle := none,
    ytOk := false, ytItems := none, rand := 0, slackHttpOk := true, slackOk := true,
    slackError := none, dbFail := false }

/-- C8: there is no presence check on the entity's fields — with `artistName`
absent the template literal embeds the text `undefined`, and the success path
stores that string as the record's title. -/
theorem c8_code_eval :
    songTitleOf c8Data = some "undefined - Half Light"
      ∧ (handleMusicLink c8Msg "https://open.spotify.com/track/2" c8Env []).db
        = [{ original_url := "https://open.spotify.com/track/2",
             songlink_url := some "https://song.link/s/2", youtube_url := none,
             title := some "undefined - Half Light", shared_by := "U800",
             channel := "C800", message_ts := "1700000000.000800" }] := by
  exact ⟨by decide, by decide⟩

/-- C9: persistence fails soft — when the insert throws (`dbFail`), the table
is left unchanged and exactly the same replies are posted as when it succeeds;
the step returns normally either way (it is a total function), so a
persistence failure never blocks, fails, or appears in the user-facing
reply. -/
theorem c9_store_fails_soft (msg : SlackMessageEvent) (url : String) (env : UrlEnv)
    (db : List SharedSong) :
    (handleMusicLink msg url { env with dbFail := true } db).posts
        = (handleMusicLink msg url { env with dbFail := false } db).posts
      ∧ (handleMusicLink msg url { env with dbFail := true } db).db = db := by
  obtain ⟨lk, ak, pok, pt, yok, yit, rd, shh, sok, serr, dbf⟩ := env
  cases lk with
  | success data =>
    cases shh <;> cases sok <;> simp [handleMusicLink, storeSongShare]
  | failure status =>
    have hfb : tryFallback ⟨.failure status, ak, pok, pt, yok, yit, rd, shh, sok, serr, true⟩
        = tryFallback ⟨.failure status, ak, pok, pt, yok, yit, rd, shh, sok, serr, false⟩ := rfl
    cases h2 : tryFallback ⟨.failure status, ak, pok, pt, yok, yit, rd, shh, sok, serr, false⟩ with
    | none => simp [handleMusicLink, hfb, h2, storeSongShare]
    | some qy =>
      cases qy with
      | mk q y => simp [handleMusicLink, hfb, h2, storeSongShare]

/-- C10 counterexample event: an `event_callback` whose nested message event
has `bot_id` present but equal to the empty string. -/
def c10Event : SlackEvent :=
  { type := "event_callback", challenge := none,
    event := some { type := "message", channel := "C900", user := "U900",
                    text := some "https://open.spotify.com/track/1", ts := "2.0",
                    bot_id := some "" } }

/-- C10 counterexample: the dispatcher guard tests truthiness of `bot_id`, not
presence — an event carrying the (empty-string) bot-origin marker is still
handed to the pipeline. -/
theorem c10_counterexample :
    ((dispatchVerified c10Event).scheduled).isSome = true
      ∧ (c10Event.event.map SlackMessageEvent.bot_id) = some (some "") := by
  exact ⟨by decide, by decide⟩

/-- C10 (amended): an `event_callback` whose nested message event carries a
non-empty `bot_id` is never scheduled — no lookup, reply or store can happen
for it — while the endpoint still answers `OK`; in particular the bot never
reacts to its own (non-empty `bot_id`) threaded replies. -/
theorem c10_bot_skip_amended (ev : SlackEvent) (e : SlackMessageEvent) (b : String)
    (h : ev.type = "event_callback") (he : ev.event = some e) (hb : e.bot_id = some b)
    (hne : b ≠ "") :
    dispatchVerified ev = { response := .okText, scheduled := none } := by
  have hbt : jsTruthy e.bot_id = true := by simp [jsTruthy, hb, hne]
  simp [dispatchVerified, h, he, hbt]

/-- The C10 witness event: a realistic bot reply with a non-empty `bot_id`. -/
def c10wEvent : SlackEvent :=
  { type := "event_callback", challenge := none,
    event := some { type := "message", channel := "C900", user := "U900",
                    text := some "🎵 song", ts := "3.0", bot_id := some "B0XYZ" } }

/-- Witness for C10 (amended) at a concrete bot-authored message. -/
theorem c10_witness :
    dispatchVerified c10wEvent = { response := .okText, scheduled := none } :=
  c10_bot_skip_amended c10wEvent
    ⟨"message", "C900", "U900", some "🎵 song", "3.0", some "B0XYZ"⟩ "B0XYZ"
    rfl rfl rfl (by decide)
